import Mathlib

/-!
Shallow embedding of the historical-condition probability engine of
`src/app.py` (weather-prediction): the day-of-year selector, the
condition probability engine and the comfort index calculator inside
`analyze_conditions`, together with the dataframe column mutation the
function performs on its input.

Numeric values (temperatures, percentages, averages) are modelled as
rationals; pandas boolean-series `.mean()` is modelled as the mean of the
0/1 indicators of a list of booleans, exactly as the code computes it.
-/

namespace WeatherApp

/-- One daily climate record, as built by `fetch_weather`: a calendar date
plus the five scalar fields of the dataframe. -/
structure DailyRecord where
  year : Nat
  month : Nat
  day : Nat
  temperature : ℚ
  precip : ℚ
  windspeed : ℚ
  solar_uv : ℚ
  humidity : ℚ
deriving DecidableEq, Repr

/-- A pandas dataframe as the core sees it: an ordered list of rows plus
the list of column labels (mutated in place by `df["month"], df["day"] = ...`
on line 39 of `app.py`). -/
structure DataFrame where
  rows : List DailyRecord
  columns : List String
deriving DecidableEq, Repr

/-- The column labels `fetch_weather` produces. -/
def fetchColumns : List String :=
  ["date", "temperature", "precip", "windspeed", "solar_uv", "humidity"]

/-- Pandas column assignment `df[c] = ...` at the label level: appends the
label when absent, overwrites (keeping position) when present. -/
def assignColumn (cols : List String) (c : String) : List String :=
  if c ∈ cols then cols else cols ++ [c]

/-- Mean `.mean()` of a pandas boolean series: the arithmetic mean of the 0/1
indicators. -/
def boolMean (bs : List Bool) : ℚ :=
  ((bs.map fun b => if b then (1 : ℚ) else 0).sum) / bs.length

/-- Percentage `(subset[field] <op> threshold).mean() * 100` for a row predicate `p`. -/
def seriesPct (s : List DailyRecord) (p : DailyRecord → Bool) : ℚ :=
  boolMean (s.map p) * 100

/-- Average `subset[field].mean()`: arithmetic mean of a scalar field. -/
def seriesMean (s : List DailyRecord) (f : DailyRecord → ℚ) : ℚ :=
  ((s.map f).sum) / s.length

/-- The result mapping built by `analyze_conditions`, with one typed field
per labelled entry of the Python dict. -/
structure ConditionResult where
  veryHot : ℚ
  veryCold : ℚ
  veryWindy : ℚ
  veryWet : ℚ
  veryUncomfortable : ℚ
  avgTemperature : ℚ
  avgRainfall : ℚ
  avgWindspeed : ℚ
  avgHumidity : ℚ
  comfortIndex : ℚ
deriving DecidableEq, Repr

/-- The day-of-year selector:
`subset = df[(df["month"] == month) & (df["day"] == day)]`. -/
def daySubset (rows : List DailyRecord) (month day : Nat) : List DailyRecord :=
  rows.filter fun r => r.month == month && r.day == day

/-- The `results` dict of `analyze_conditions` built over a (non-empty)
subset: the five boolean-mask percentages, the four field means, and the
clamped comfort index of lines 44–64 of `app.py`. -/
def buildResults (subset : List DailyRecord)
    (hot cold wind rain humidity : ℚ) : ConditionResult :=
  let avgT := seriesMean subset (fun r => r.temperature)
  let avgR := seriesMean subset (fun r => r.precip)
  let avgW := seriesMean subset (fun r => r.windspeed)
  let avgH := seriesMean subset (fun r => r.humidity)
  let comfort : ℚ :=
    100 - (|avgT - 22| * 2 + avgH * (3 / 10) + avgW * (3 / 2))
  { veryHot := seriesPct subset (fun r => decide (hot < r.temperature))
    veryCold := seriesPct subset (fun r => decide (r.temperature < cold))
    veryWindy := seriesPct subset (fun r => decide (wind < r.windspeed))
    veryWet := seriesPct subset (fun r => decide (rain < r.precip))
    veryUncomfortable := seriesPct subset (fun r =>
      (decide (hot < r.temperature) || decide (r.temperature < cold)) &&
        decide (humidity < r.humidity))
    avgTemperature := avgT
    avgRainfall := avgR
    avgWindspeed := avgW
    avgHumidity := avgH
    comfortIndex := max 0 (min 100 comfort) }

/-- A raised Python exception, as `analyze_conditions` can raise one: a
`KeyError` on a missing dataframe column. -/
inductive PyError where
  | keyError (key : String)
deriving DecidableEq, Repr

/-- The function `analyze_conditions(df, month, day, hot, cold, wind, rain, humidity)`.
Line 39 evaluates `df["date"].dt.month` first, so on a dataframe with no
`date` column — in particular the column-less `pd.DataFrame()` that
`fetch_weather` returns on failure (line 35) — the call raises
`KeyError("date")`, modelled as the `Except.error` branch. Otherwise the
function mutates its argument by assigning the `month` and `day` columns,
and returns the post-call dataframe together with the Python return
value: `None, None` on an empty subset, otherwise the results dict and
the subset. -/
def analyze_conditions (df : DataFrame) (month day : Nat)
    (hot cold wind rain humidity : ℚ) :
    Except PyError (DataFrame × Option (ConditionResult × List DailyRecord)) :=
  if "date" ∈ df.columns then
    let df' : DataFrame :=
      { df with columns := assignColumn (assignColumn df.columns "month") "day" }
    let subset := daySubset df'.rows month day
    if subset.isEmpty then
      Except.ok (df', none)
    else
      Except.ok (df', some (buildResults subset hot cold wind rain humidity, subset))
  else
    Except.error (PyError.keyError "date")

/-! ### Concrete sample data used by witnesses and scenarios -/

/-- A single July 4th record: 30 °C, 5 mm rain, 3 m/s wind, 50 % humidity. -/
def rec0 : DailyRecord :=
  { year := 2000, month := 7, day := 4, temperature := 30, precip := 5
    windspeed := 3, solar_uv := 1, humidity := 50 }

/-- A one-row dataframe holding `rec0`, with the columns `fetch_weather`
produces (no `month`/`day` columns yet). -/
def df0 : DataFrame := { rows := [rec0], columns := fetchColumns }

/-- A record whose averages hit the comfort reference point exactly:
22 °C, no humidity, no wind. -/
def rec22 : DailyRecord :=
  { year := 2001, month := 1, day := 1, temperature := 22, precip := 0
    windspeed := 0, solar_uv := 0, humidity := 0 }

def df22 : DataFrame := { rows := [rec22], columns := fetchColumns }

/-- Averages 32 °C, 80 % humidity, 10 m/s wind: the 41.0 comfort scenario. -/
def rec32 : DailyRecord :=
  { year := 2001, month := 1, day := 1, temperature := 32, precip := 0
    windspeed := 10, solar_uv := 0, humidity := 80 }

def df32 : DataFrame := { rows := [rec32], columns := fetchColumns }

/-- Averages 80 °C, 100 % humidity, 30 m/s wind: raw comfort is negative. -/
def rec80 : DailyRecord :=
  { year := 2001, month := 1, day := 1, temperature := 80, precip := 0
    windspeed := 30, solar_uv := 0, humidity := 100 }

def df80 : DataFrame := { rows := [rec80], columns := fetchColumns }

/-- Day count of each month in a non-leap year (month given 1-based). -/
def daysInMonth (m : Nat) : Nat :=
  if m = 2 then 28
  else if m = 4 ∨ m = 6 ∨ m = 9 ∨ m = 11 then 30
  else 31

/-- One record per calendar day of a non-leap year `y` (constant fields). -/
def nonLeapYear (y : Nat) : List DailyRecord :=
  (List.range 12).flatMap fun m =>
    (List.range (daysInMonth (m + 1))).map fun d =>
      { year := y, month := m + 1, day := d + 1, temperature := 20
        precip := 0, windspeed := 0, solar_uv := 0, humidity := 0 }

/-- A three-year time series with one record per day and no leap-day
records (years 2001–2003 are non-leap). -/
def threeYearSeries : List DailyRecord :=
  nonLeapYear 2001 ++ nonLeapYear 2002 ++ nonLeapYear 2003

/-! ### Helper lemmas -/

theorem indicatorSum_eq_countP (l : List DailyRecord) (p : DailyRecord → Bool) :
    ((l.map p).map fun b => if b then (1 : ℚ) else 0).sum = l.countP p := by
  induction l with
  | nil => simp
  | cons a l ih =>
    simp only [List.map_cons, List.sum_cons, List.countP_cons, ih]
    by_cases h : p a = true
    · simp only [h, if_true]
      push_cast
      ring
    · simp [h]

/-- The boolean-series mean, times 100, is the exceedance-count fraction. -/
theorem seriesPct_eq_countP (s : List DailyRecord) (p : DailyRecord → Bool) :
    seriesPct s p = (s.countP p : ℚ) / s.length * 100 := by
  simp only [seriesPct, boolMean, List.length_map]
  rw [indicatorSum_eq_countP]

theorem seriesPct_nonneg (s : List DailyRecord) (p : DailyRecord → Bool) :
    0 ≤ seriesPct s p := by
  rw [seriesPct_eq_countP]
  positivity

theorem seriesPct_le_hundred (s : List DailyRecord) (p : DailyRecord → Bool)
    (hs : s ≠ []) : seriesPct s p ≤ 100 := by
  rw [seriesPct_eq_countP]
  have hlen : 0 < (s.length : ℚ) := by
    exact_mod_cast List.length_pos.mpr hs
  have hle : ((s.countP p : ℚ)) / s.length ≤ 1 := by
    rw [div_le_one hlen]
    exact_mod_cast List.countP_le_length p
  calc (s.countP p : ℚ) / s.length * 100 ≤ 1 * 100 := by
        exact mul_le_mul_of_nonneg_right hle (by norm_num)
    _ = 100 := by norm_num

theorem seriesPct_mono (s : List DailyRecord) (p q : DailyRecord → Bool)
    (hpq : ∀ r ∈ s, p r → q r) :
    seriesPct s p ≤ seriesPct s q := by
  rw [seriesPct_eq_countP, seriesPct_eq_countP]
  have hc : (s.countP p : ℚ) ≤ s.countP q := by
    exact_mod_cast List.countP_mono_left hpq
  gcongr

theorem countP_or_le (l : List DailyRecord) (p q : DailyRecord → Bool) :
    l.countP (fun r => p r || q r) ≤ l.countP p + l.countP q := by
  induction l with
  | nil => simp
  | cons a l ih =>
    simp only [List.countP_cons]
    cases hp : p a <;> cases hq : q a <;> simp [hp, hq] <;> omega

/-- A successful `analyze_conditions` call returns the mutated dataframe
and the results dict built over the day-of-year selection, together with
that selection. -/
theorem analyze_some (df : DataFrame) (month day : Nat)
    (hot cold wind rain humidity : ℚ)
    (hdate : "date" ∈ df.columns)
    (h : (daySubset df.rows month day).isEmpty = false) :
    analyze_conditions df month day hot cold wind rain humidity =
      Except.ok
        ({ df with
            columns := assignColumn (assignColumn df.columns "month") "day" },
          some (buildResults (daySubset df.rows month day)
              hot cold wind rain humidity,
            daySubset df.rows month day)) := by
  unfold analyze_conditions
  simp only
  split
  · split
    · next hemp => rw [show ({ df with columns := assignColumn (assignColumn df.columns "month") "day" } : DataFrame).rows = df.rows from rfl] at hemp; rw [hemp] at h; cases h
    · rfl
  · next hnd => exact absurd hdate hnd

/-- An empty day-of-year selection on a dataframe that has its `date`
column makes `analyze_conditions` return the `None` sentinel. -/
theorem analyze_none (df : DataFrame) (month day : Nat)
    (hot cold wind rain humidity : ℚ)
    (hdate : "date" ∈ df.columns)
    (h : daySubset df.rows month day = []) :
    analyze_conditions df month day hot cold wind rain humidity =
      Except.ok
        ({ df with
            columns := assignColumn (assignColumn df.columns "month") "day" },
          none) := by
  unfold analyze_conditions
  simp only
  split
  · split
    · rfl
    · next hne =>
      rw [show ({ df with columns := assignColumn (assignColumn df.columns "month") "day" } : DataFrame).rows = df.rows from rfl, h] at hne
      simp at hne
  · next hnd => exact absurd hdate hnd

/-- On a dataframe with no `date` column — the fetch-failure frame — the
line-39 column access raises, modelled as the error outcome. -/
theorem analyze_error (df : DataFrame) (month day : Nat)
    (hot cold wind rain humidity : ℚ)
    (hdate : "date" ∉ df.columns) :
    analyze_conditions df month day hot cold wind rain humidity =
      Except.error (PyError.keyError "date") := by
  unfold analyze_conditions
  simp only
  split
  · next hd => exact absurd hd hdate
  · rfl

/-- Whenever the `date` column is present the call succeeds, and the
dataframe it hands back is the input with the `month` and `day` columns
assigned. -/
theorem analyze_ok_fst (df : DataFrame) (month day : Nat)
    (hot cold wind rain humidity : ℚ)
    (hdate : "date" ∈ df.columns) :
    ∃ rest, analyze_conditions df month day hot cold wind rain humidity =
      Except.ok
        ({ df with
            columns := assignColumn (assignColumn df.columns "month") "day" },
          rest) := by
  unfold analyze_conditions
  simp only
  split
  · split
    · exact ⟨none, rfl⟩
    · exact ⟨some _, rfl⟩
  · next hnd => exact absurd hdate hnd

/-- The fields of `buildResults`, unfolded. -/
theorem buildResults_def (subset : List DailyRecord)
    (hot cold wind rain humidity : ℚ) :
    buildResults subset hot cold wind rain humidity =
      { veryHot := seriesPct subset (fun r => decide (hot < r.temperature))
        veryCold := seriesPct subset (fun r => decide (r.temperature < cold))
        veryWindy := seriesPct subset (fun r => decide (wind < r.windspeed))
        veryWet := seriesPct subset (fun r => decide (rain < r.precip))
        veryUncomfortable := seriesPct subset (fun r =>
          (decide (hot < r.temperature) || decide (r.temperature < cold)) &&
            decide (humidity < r.humidity))
        avgTemperature := seriesMean subset (fun r => r.temperature)
        avgRainfall := seriesMean subset (fun r => r.precip)
        avgWindspeed := seriesMean subset (fun r => r.windspeed)
        avgHumidity := seriesMean subset (fun r => r.humidity)
        comfortIndex := max 0 (min 100 (100 -
          (|seriesMean subset (fun r => r.temperature) - 22| * 2 +
            seriesMean subset (fun r => r.humidity) * (3 / 10) +
            seriesMean subset (fun r => r.windspeed) * (3 / 2)))) } := rfl

/-- The empty dataframe an upstream fetch failure produces. -/
def emptyDF : DataFrame := { rows := [], columns := [] }

/-! ### Claims -/

/-- C1: for every non-empty DaySubset and every threshold, each exceedance
percentage computed by `analyze_conditions` equals (count of records where
the field strictly crosses the threshold) / (total records in the
DaySubset) × 100, with strict greater-than for hot, wind and rain and
strict less-than for cold; each formula depends only on its own
threshold. -/
theorem C1_exceedance_percentages (df : DataFrame) (month day : Nat)
    (hot cold wind rain humidity : ℚ)
    (hdate : "date" ∈ df.columns)
    (h : (daySubset df.rows month day).isEmpty = false) :
    ∃ dfOut res sub,
      analyze_conditions df month day hot cold wind rain humidity =
        Except.ok (dfOut, some (res, sub)) ∧
      res.veryHot =
        (sub.countP (fun r => decide (r.temperature > hot)) : ℚ) / sub.length * 100 ∧
      res.veryCold =
        (sub.countP (fun r => decide (r.temperature < cold)) : ℚ) / sub.length * 100 ∧
      res.veryWindy =
        (sub.countP (fun r => decide (r.windspeed > wind)) : ℚ) / sub.length * 100 ∧
      res.veryWet =
        (sub.countP (fun r => decide (r.precip > rain)) : ℚ) / sub.length * 100 := by
  refine ⟨_, _, _,
    analyze_some df month day hot cold wind rain humidity hdate h,
    ?_, ?_, ?_, ?_⟩ <;>
    simp [buildResults_def, seriesPct_eq_countP, gt_iff_lt]

theorem C1_witness :
    ("date" ∈ df0.columns ∧ (daySubset df0.rows 7 4).isEmpty = false) ∧
    ∃ dfOut res sub,
      analyze_conditions df0 7 4 25 5 10 10 80 =
        Except.ok (dfOut, some (res, sub)) ∧
      res.veryHot =
        (sub.countP (fun r => decide (r.temperature > 25)) : ℚ) / sub.length * 100 ∧
      res.veryCold =
        (sub.countP (fun r => decide (r.temperature < 5)) : ℚ) / sub.length * 100 ∧
      res.veryWindy =
        (sub.countP (fun r => decide (r.windspeed > 10)) : ℚ) / sub.length * 100 ∧
      res.veryWet =
        (sub.countP (fun r => decide (r.precip > 10)) : ℚ) / sub.length * 100 :=
  ⟨⟨by decide, by decide⟩,
    C1_exceedance_percentages df0 7 4 25 5 10 10 80 (by decide) (by decide)⟩

/-- C2: for every non-empty DaySubset, the compound discomfort percentage
is the fraction of records satisfying the joint condition
((temperature > hot) ∨ (temperature < cold)) ∧ (humidity > humidity
threshold), as a percentage. -/
theorem C2_compound_discomfort (df : DataFrame) (month day : Nat)
    (hot cold wind rain humidity : ℚ)
    (hdate : "date" ∈ df.columns)
    (h : (daySubset df.rows month day).isEmpty = false) :
    ∃ dfOut res sub,
      analyze_conditions df month day hot cold wind rain humidity =
        Except.ok (dfOut, some (res, sub)) ∧
      res.veryUncomfortable =
        (sub.countP (fun r =>
          decide ((r.temperature > hot ∨ r.temperature < cold) ∧
            r.humidity > humidity)) : ℚ) / sub.length * 100 := by
  refine ⟨_, _, _,
    analyze_some df month day hot cold wind rain humidity hdate h, ?_⟩
  simp [buildResults_def, seriesPct_eq_countP, Bool.decide_and, Bool.decide_or,
    gt_iff_lt]

theorem C2_witness :
    ("date" ∈ df0.columns ∧ (daySubset df0.rows 7 4).isEmpty = false) ∧
    ∃ dfOut res sub,
      analyze_conditions df0 7 4 25 5 10 10 80 =
        Except.ok (dfOut, some (res, sub)) ∧
      res.veryUncomfortable =
        (sub.countP (fun r =>
          decide ((r.temperature > 25 ∨ r.temperature < 5) ∧
            r.humidity > 80)) : ℚ) / sub.length * 100 :=
  ⟨⟨by decide, by decide⟩,
    C2_compound_discomfort df0 7 4 25 5 10 10 80 (by decide) (by decide)⟩

theorem seriesMean_singleton (r : DailyRecord) (f : DailyRecord → ℚ) :
    seriesMean [r] f = f r := by
  simp [seriesMean]

/-- C3: for every non-empty DaySubset the comfort index equals
100 − (|avg temperature − 22|·2 + avg humidity·0.3 + avg windspeed·1.5)
clamped to [0, 100] with the averages taken over the DaySubset, and the
spec's three scenarios hold: averages (22, 0, 0) give 100, averages
(32, 80, 10) give 41, and a negative raw value clamps to 0. -/
theorem C3_comfort_index (df : DataFrame) (month day : Nat)
    (hot cold wind rain humidity : ℚ)
    (hdate : "date" ∈ df.columns)
    (h : (daySubset df.rows month day).isEmpty = false) :
    (∃ dfOut res sub,
      analyze_conditions df month day hot cold wind rain humidity =
        Except.ok (dfOut, some (res, sub)) ∧
      res.avgTemperature = seriesMean sub (fun r => r.temperature) ∧
      res.avgHumidity = seriesMean sub (fun r => r.humidity) ∧
      res.avgWindspeed = seriesMean sub (fun r => r.windspeed) ∧
      res.comfortIndex = max 0 (min 100 (100 -
        (|res.avgTemperature - 22| * 2 + res.avgHumidity * (3 / 10) +
          res.avgWindspeed * (3 / 2))))) ∧
    ((analyze_conditions df22 1 1 35 5 10 10 80).toOption.bind
      fun out => out.2.map fun p => p.1.comfortIndex) = some 100 ∧
    ((analyze_conditions df32 1 1 35 5 10 10 80).toOption.bind
      fun out => out.2.map fun p => p.1.comfortIndex) = some 41 ∧
    ((analyze_conditions df80 1 1 35 5 10 10 80).toOption.bind
      fun out => out.2.map fun p => p.1.comfortIndex) = some 0 := by
  refine ⟨⟨_, _, _,
    analyze_some df month day hot cold wind rain humidity hdate h,
    by simp [buildResults_def], by simp [buildResults_def],
    by simp [buildResults_def], by simp [buildResults_def]⟩, ?_, ?_, ?_⟩
  · rw [analyze_some df22 1 1 35 5 10 10 80 (by decide) (by decide)]
    have hsub : daySubset df22.rows 1 1 = [rec22] := by decide
    rw [hsub]
    simp only [Except.toOption, Option.bind, Option.map_some,
      buildResults_def, seriesMean_singleton]
    norm_num [rec22, max_def, min_def]
  · rw [analyze_some df32 1 1 35 5 10 10 80 (by decide) (by decide)]
    have hsub : daySubset df32.rows 1 1 = [rec32] := by decide
    rw [hsub]
    simp only [Except.toOption, Option.bind, Option.map_some,
      buildResults_def, seriesMean_singleton]
    norm_num [rec32, max_def, min_def]
  · rw [analyze_some df80 1 1 35 5 10 10 80 (by decide) (by decide)]
    have hsub : daySubset df80.rows 1 1 = [rec80] := by decide
    rw [hsub]
    simp only [Except.toOption, Option.bind, Option.map_some,
      buildResults_def, seriesMean_singleton]
    norm_num [rec80, max_def, min_def]

theorem C3_witness :
    ("date" ∈ df0.columns ∧ (daySubset df0.rows 7 4).isEmpty = false) ∧
    (∃ dfOut res sub,
      analyze_conditions df0 7 4 25 5 10 10 80 =
        Except.ok (dfOut, some (res, sub)) ∧
      res.avgTemperature = seriesMean sub (fun r => r.temperature) ∧
      res.avgHumidity = seriesMean sub (fun r => r.humidity) ∧
      res.avgWindspeed = seriesMean sub (fun r => r.windspeed) ∧
      res.comfortIndex = max 0 (min 100 (100 -
        (|res.avgTemperature - 22| * 2 + res.avgHumidity * (3 / 10) +
          res.avgWindspeed * (3 / 2))))) ∧
    ((analyze_conditions df22 1 1 35 5 10 10 80).toOption.bind
      fun out => out.2.map fun p => p.1.comfortIndex) = some 100 ∧
    ((analyze_conditions df32 1 1 35 5 10 10 80).toOption.bind
      fun out => out.2.map fun p => p.1.comfortIndex) = some 41 ∧
    ((analyze_conditions df80 1 1 35 5 10 10 80).toOption.bind
      fun out => out.2.map fun p => p.1.comfortIndex) = some 0 :=
  ⟨⟨by decide, by decide⟩,
    C3_comfort_index df0 7 4 25 5 10 10 80 (by decide) (by decide)⟩

/-- C4 counterexample: on the column-less `pd.DataFrame()` that
`fetch_weather` returns on fetch failure (line 35), `analyze_conditions`
raises `KeyError("date")` at the line-39 column access instead of
returning the `None` sentinel — the claim's "including the case where the
input TimeSeries itself is empty" fails at exactly that input. -/
theorem C4_counterexample :
    analyze_conditions emptyDF 2 29 35 5 10 10 80 =
      Except.error (PyError.keyError "date") := by
  rfl

/-- C4 (amended): when the DaySubset is empty for a dataframe that has
its `date` column, `analyze_conditions` returns the `None` sentinel in
place of a ConditionResult — an outcome that is neither a successful
result nor an exception; the fetch-failure empty TimeSeries, however,
lacks the `date` column, and on it the call raises `KeyError("date")`
instead of returning the sentinel (the caller at lines 157–159 guards
with `df.empty` and never hands that frame to the engine). -/
theorem C4_empty_sentinel (df : DataFrame) (month day : Nat)
    (hot cold wind rain humidity : ℚ)
    (hdate : "date" ∈ df.columns)
    (h : daySubset df.rows month day = []) :
    (∃ dfOut, analyze_conditions df month day hot cold wind rain humidity =
      Except.ok (dfOut, none)) ∧
    (∀ dfOut res sub,
      analyze_conditions df month day hot cold wind rain humidity ≠
        Except.ok (dfOut, some (res, sub))) ∧
    (∀ e, analyze_conditions df month day hot cold wind rain humidity ≠
      Except.error e) ∧
    analyze_conditions emptyDF month day hot cold wind rain humidity =
      Except.error (PyError.keyError "date") := by
  have hn := analyze_none df month day hot cold wind rain humidity hdate h
  refine ⟨⟨_, hn⟩, ?_, ?_, ?_⟩
  · intro dfOut res sub hc
    rw [hn] at hc
    simp at hc
  · intro e hc
    rw [hn] at hc
    simp at hc
  · exact analyze_error emptyDF month day hot cold wind rain humidity
      (by simp [emptyDF])

theorem C4_witness :
    ("date" ∈ df0.columns ∧ daySubset df0.rows 2 29 = []) ∧
    ((∃ dfOut, analyze_conditions df0 2 29 35 5 10 10 80 =
        Except.ok (dfOut, none)) ∧
      (∀ dfOut res sub,
        analyze_conditions df0 2 29 35 5 10 10 80 ≠
          Except.ok (dfOut, some (res, sub))) ∧
      (∀ e, analyze_conditions df0 2 29 35 5 10 10 80 ≠ Except.error e) ∧
      analyze_conditions emptyDF 2 29 35 5 10 10 80 =
        Except.error (PyError.keyError "date")) :=
  ⟨⟨by decide, by decide⟩,
    C4_empty_sentinel df0 2 29 35 5 10 10 80 (by decide) (by decide)⟩

/-- C5: whenever `analyze_conditions` returns a ConditionResult, each of
the five percentage fields lies in [0, 100] and the comfort index lies in
[0, 100]. -/
theorem C5_range_invariant (df : DataFrame) (month day : Nat)
    (hot cold wind rain humidity : ℚ)
    (hdate : "date" ∈ df.columns)
    (h : (daySubset df.rows month day).isEmpty = false) :
    ∃ dfOut res sub,
      analyze_conditions df month day hot cold wind rain humidity =
        Except.ok (dfOut, some (res, sub)) ∧
      (0 ≤ res.veryHot ∧ res.veryHot ≤ 100) ∧
      (0 ≤ res.veryCold ∧ res.veryCold ≤ 100) ∧
      (0 ≤ res.veryWindy ∧ res.veryWindy ≤ 100) ∧
      (0 ≤ res.veryWet ∧ res.veryWet ≤ 100) ∧
      (0 ≤ res.veryUncomfortable ∧ res.veryUncomfortable ≤ 100) ∧
      (0 ≤ res.comfortIndex ∧ res.comfortIndex ≤ 100) := by
  have hne : daySubset df.rows month day ≠ [] := by
    intro hn
    rw [hn] at h
    cases h
  refine ⟨_, _, _,
    analyze_some df month day hot cold wind rain humidity hdate h,
    ?_, ?_, ?_, ?_, ?_, ?_⟩ <;> simp only [buildResults_def]
  · exact ⟨seriesPct_nonneg _ _, seriesPct_le_hundred _ _ hne⟩
  · exact ⟨seriesPct_nonneg _ _, seriesPct_le_hundred _ _ hne⟩
  · exact ⟨seriesPct_nonneg _ _, seriesPct_le_hundred _ _ hne⟩
  · exact ⟨seriesPct_nonneg _ _, seriesPct_le_hundred _ _ hne⟩
  · exact ⟨seriesPct_nonneg _ _, seriesPct_le_hundred _ _ hne⟩
  · exact ⟨le_max_left 0 _, max_le (by norm_num) (min_le_left 100 _)⟩

theorem C5_witness :
    ("date" ∈ df0.columns ∧ (daySubset df0.rows 7 4).isEmpty = false) ∧
    ∃ dfOut res sub,
      analyze_conditions df0 7 4 25 5 10 10 80 =
        Except.ok (dfOut, some (res, sub)) ∧
      (0 ≤ res.veryHot ∧ res.veryHot ≤ 100) ∧
      (0 ≤ res.veryCold ∧ res.veryCold ≤ 100) ∧
      (0 ≤ res.veryWindy ∧ res.veryWindy ≤ 100) ∧
      (0 ≤ res.veryWet ∧ res.veryWet ≤ 100) ∧
      (0 ≤ res.veryUncomfortable ∧ res.veryUncomfortable ≤ 100) ∧
      (0 ≤ res.comfortIndex ∧ res.comfortIndex ≤ 100) :=
  ⟨⟨by decide, by decide⟩,
    C5_range_invariant df0 7 4 25 5 10 10 80 (by decide) (by decide)⟩

set_option maxRecDepth 100000 in
/-- C6: the day-of-year selector keeps exactly the records whose month and
day equal the target (the year is ignored), in input order (the selection
is a sublist of the input); the subset `analyze_conditions` hands back is
that selection; and querying February 29 against a three-year source with
one record per day and no leap-day records yields the empty subset. -/
theorem C6_day_of_year_selector (rows : List DailyRecord) (month day : Nat)
    (df : DataFrame) (hot cold wind rain humidity : ℚ) :
    List.Sublist (daySubset rows month day) rows ∧
    (∀ r, r ∈ daySubset rows month day ↔
      (r ∈ rows ∧ r.month = month ∧ r.day = day)) ∧
    (((analyze_conditions df month day hot cold wind rain humidity).toOption.bind
        fun out => out.2.map Prod.snd).getD (daySubset df.rows month day) =
      daySubset df.rows month day) ∧
    daySubset threeYearSeries 2 29 = [] := by
  refine ⟨List.filter_sublist rows, ?_, ?_, by decide⟩
  · intro r
    simp [daySubset, List.mem_filter, and_assoc]
  · by_cases hdate : "date" ∈ df.columns
    · cases hemp : (daySubset df.rows month day).isEmpty
      · rw [analyze_some df month day hot cold wind rain humidity hdate hemp]
        rfl
      · rw [analyze_none df month day hot cold wind rain humidity hdate
          (List.isEmpty_iff.mp hemp)]
        rfl
    · rw [analyze_error df month day hot cold wind rain humidity hdate]
      rfl

/-- C7: over a fixed non-empty DaySubset, the hot, wind and rain
exceedance percentages are non-increasing in their thresholds and the
cold percentage is non-decreasing in its threshold. -/
theorem C7_threshold_monotonicity (df : DataFrame) (month day : Nat)
    (hot1 hot2 cold1 cold2 wind1 wind2 rain1 rain2 humidity : ℚ)
    (hdate : "date" ∈ df.columns)
    (h : (daySubset df.rows month day).isEmpty = false)
    (hh : hot1 ≤ hot2) (hc : cold1 ≤ cold2) (hw : wind1 ≤ wind2)
    (hr : rain1 ≤ rain2) :
    ∃ dfOut res1 res2 sub,
      analyze_conditions df month day hot1 cold1 wind1 rain1 humidity =
        Except.ok (dfOut, some (res1, sub)) ∧
      analyze_conditions df month day hot2 cold2 wind2 rain2 humidity =
        Except.ok (dfOut, some (res2, sub)) ∧
      res2.veryHot ≤ res1.veryHot ∧
      res1.veryCold ≤ res2.veryCold ∧
      res2.veryWindy ≤ res1.veryWindy ∧
      res2.veryWet ≤ res1.veryWet := by
  refine ⟨_, _, _, _,
    analyze_some df month day hot1 cold1 wind1 rain1 humidity hdate h,
    analyze_some df month day hot2 cold2 wind2 rain2 humidity hdate h,
    ?_, ?_, ?_, ?_⟩ <;> simp only [buildResults_def]
  · exact seriesPct_mono _ _ _ fun r _ hb => by
      simp only [decide_eq_true_eq] at hb ⊢
      exact lt_of_le_of_lt hh hb
  · exact seriesPct_mono _ _ _ fun r _ hb => by
      simp only [decide_eq_true_eq] at hb ⊢
      exact lt_of_lt_of_le hb hc
  · exact seriesPct_mono _ _ _ fun r _ hb => by
      simp only [decide_eq_true_eq] at hb ⊢
      exact lt_of_le_of_lt hw hb
  · exact seriesPct_mono _ _ _ fun r _ hb => by
      simp only [decide_eq_true_eq] at hb ⊢
      exact lt_of_le_of_lt hr hb

theorem C7_witness :
    ("date" ∈ df0.columns ∧ (daySubset df0.rows 7 4).isEmpty = false ∧
      (25 : ℚ) ≤ 28 ∧ (2 : ℚ) ≤ 5 ∧ (8 : ℚ) ≤ 10 ∧ (6 : ℚ) ≤ 10) ∧
    ∃ dfOut res1 res2 sub,
      analyze_conditions df0 7 4 25 2 8 6 80 =
        Except.ok (dfOut, some (res1, sub)) ∧
      analyze_conditions df0 7 4 28 5 10 10 80 =
        Except.ok (dfOut, some (res2, sub)) ∧
      res2.veryHot ≤ res1.veryHot ∧
      res1.veryCold ≤ res2.veryCold ∧
      res2.veryWindy ≤ res1.veryWindy ∧
      res2.veryWet ≤ res1.veryWet :=
  ⟨⟨by decide, by decide, by decide, by decide, by decide, by decide⟩,
    C7_threshold_monotonicity df0 7 4 25 28 2 5 8 10 6 10 80 (by decide)
      (by decide) (by decide) (by decide) (by decide) (by decide)⟩

/-- C8: `analyze_conditions` is deterministic — two calls whose dataframe,
month, day and five thresholds are equal return identical values
(dataframe state, ConditionResult and DaySubset alike). -/
theorem C8_determinism (dfa dfb : DataFrame) (montha monthb daya dayb : Nat)
    (hota hotb colda coldb winda windb raina rainb humiditya humidityb : ℚ)
    (hdf : dfa = dfb) (hm : montha = monthb) (hd : daya = dayb)
    (hhot : hota = hotb) (hcold : colda = coldb) (hwind : winda = windb)
    (hrain : raina = rainb) (hhum : humiditya = humidityb) :
    analyze_conditions dfa montha daya hota colda winda raina humiditya =
      analyze_conditions dfb monthb dayb hotb coldb windb rainb humidityb := by
  subst hdf hm hd hhot hcold hwind hrain hhum
  rfl

theorem C8_witness :
    analyze_conditions df0 7 4 25 5 10 10 80 =
      analyze_conditions df0 7 4 25 5 10 10 80 :=
  C8_determinism df0 df0 7 7 4 4 25 25 5 5 10 10 10 10 80 80
    rfl rfl rfl rfl rfl rfl rfl rfl

theorem assignColumn_eq_self (cols : List String) (c : String) :
    assignColumn cols c = cols ↔ c ∈ cols := by
  unfold assignColumn
  split
  · next hmem => simp [hmem]
  · next hmem =>
    constructor
    · intro heq
      have hlen := congrArg List.length heq
      simp at hlen
    · intro hc
      exact absurd hc hmem

/-- C9 counterexample: on a freshly fetched dataframe (no `month`/`day`
columns) `analyze_conditions` does not leave its input unchanged — the
call succeeds yet the dataframe it hands back differs from the input,
having gained two columns. -/
theorem C9_counterexample :
    (analyze_conditions df0 7 4 25 5 10 10 80).toOption.map Prod.fst ≠
      some df0 ∧
    (analyze_conditions df0 7 4 25 5 10 10 80).toOption.map Prod.fst ≠
      none := by
  exact ⟨by decide, by decide⟩

/-- C9 (amended): `analyze_conditions` leaves the records of its input
dataframe unchanged, but mutates the dataframe itself by assigning the
derived `month` and `day` columns; the input comes back unchanged exactly
when both columns were already present. -/
theorem C9_purity_amended (df : DataFrame) (month day : Nat)
    (hot cold wind rain humidity : ℚ)
    (hdate : "date" ∈ df.columns) :
    ∃ dfOut rest,
      analyze_conditions df month day hot cold wind rain humidity =
        Except.ok (dfOut, rest) ∧
      dfOut.rows = df.rows ∧
      dfOut.columns = assignColumn (assignColumn df.columns "month") "day" ∧
      (dfOut = df ↔ ("month" ∈ df.columns ∧ "day" ∈ df.columns)) := by
  obtain ⟨rest, hcall⟩ :=
    analyze_ok_fst df month day hot cold wind rain humidity hdate
  refine ⟨_, rest, hcall, rfl, rfl, ?_⟩
  have hiff : ({ df with
        columns := assignColumn (assignColumn df.columns "month") "day" } :
        DataFrame) = df ↔
      assignColumn (assignColumn df.columns "month") "day" = df.columns := by
    cases df
    simp [DataFrame.mk.injEq]
  rw [hiff]
  constructor
  · intro hco
    by_cases hm : "month" ∈ df.columns
    · rw [(assignColumn_eq_self _ _).mpr hm] at hco
      exact ⟨hm, (assignColumn_eq_self _ _).mp hco⟩
    · exfalso
      have hB : assignColumn df.columns "month" = df.columns ++ ["month"] := by
        unfold assignColumn
        rw [if_neg hm]
      rw [hB] at hco
      have hlen := congrArg List.length hco
      unfold assignColumn at hlen
      split at hlen <;> simp at hlen
  · rintro ⟨hm, hd⟩
    rw [(assignColumn_eq_self _ _).mpr hm, (assignColumn_eq_self _ _).mpr hd]

theorem C9_witness :
    "date" ∈ df0.columns ∧
    ∃ dfOut rest,
      analyze_conditions df0 7 4 25 5 10 10 80 = Except.ok (dfOut, rest) ∧
      dfOut.rows = df0.rows ∧
      dfOut.columns = assignColumn (assignColumn df0.columns "month") "day" ∧
      (dfOut = df0 ↔ ("month" ∈ df0.columns ∧ "day" ∈ df0.columns)) :=
  ⟨by decide, C9_purity_amended df0 7 4 25 5 10 10 80 (by decide)⟩

theorem seriesPct_or_le_add (s : List DailyRecord) (p q : DailyRecord → Bool) :
    seriesPct s (fun r => p r || q r) ≤ seriesPct s p + seriesPct s q := by
  rw [seriesPct_eq_countP, seriesPct_eq_countP, seriesPct_eq_countP]
  have h2 : (s.countP (fun r => p r || q r) : ℚ) ≤ s.countP p + s.countP q := by
    exact_mod_cast countP_or_le s p q
  have hlen : (0 : ℚ) ≤ (s.length : ℚ) := Nat.cast_nonneg _
  calc (s.countP (fun r => p r || q r) : ℚ) / s.length * 100
      ≤ ((s.countP p : ℚ) + s.countP q) / s.length * 100 := by gcongr
    _ = (s.countP p : ℚ) / s.length * 100 +
        (s.countP q : ℚ) / s.length * 100 := by ring

/-- C10: the compound discomfort percentage never exceeds the sum of the
hot and cold exceedance percentages, and never exceeds 100. -/
theorem C10_compound_le_sum (df : DataFrame) (month day : Nat)
    (hot cold wind rain humidity : ℚ)
    (hdate : "date" ∈ df.columns)
    (h : (daySubset df.rows month day).isEmpty = false) :
    ∃ dfOut res sub,
      analyze_conditions df month day hot cold wind rain humidity =
        Except.ok (dfOut, some (res, sub)) ∧
      res.veryUncomfortable ≤ res.veryHot + res.veryCold ∧
      res.veryUncomfortable ≤ 100 := by
  have hne : daySubset df.rows month day ≠ [] := by
    intro hn
    rw [hn] at h
    cases h
  refine ⟨_, _, _,
    analyze_some df month day hot cold wind rain humidity hdate h,
    ?_, ?_⟩ <;> simp only [buildResults_def]
  · exact le_trans
      (seriesPct_mono _ _ _ fun r _ hb => ((Bool.and_eq_true _ _).mp hb).1)
      (seriesPct_or_le_add _ _ _)
  · exact seriesPct_le_hundred _ _ hne

theorem C10_witness :
    ("date" ∈ df0.columns ∧ (daySubset df0.rows 7 4).isEmpty = false) ∧
    ∃ dfOut res sub,
      analyze_conditions df0 7 4 25 5 10 10 80 =
        Except.ok (dfOut, some (res, sub)) ∧
      res.veryUncomfortable ≤ res.veryHot + res.veryCold ∧
      res.veryUncomfortable ≤ 100 :=
  ⟨⟨by decide, by decide⟩,
    C10_compound_le_sum df0 7 4 25 5 10 10 80 (by decide) (by decide)⟩

end WeatherApp
